import Mathlib

/-!
Verification of the crop-geometry engine of `autocrop` (file
`src/autocrop/autocrop.py`) against its natural-language specification.

The source is shallowly embedded below.  Conventions of the embedding:

* Pixel coordinates and configuration scalars are `Int` (the Python code
  works with Python ints; valid inputs are far below any float-precision
  edge, so Python's float true division followed by `int(...)` truncation
  is modelled exactly by truncating integer division, `Int.tdiv`).
* A Python function that can raise is embedded as `Except PyErr _`; a
  raised exception is an `Except.error`.  `PyErr` distinguishes the
  exception kinds the embedded code can actually raise.
* External collaborators (face detector, image decode, raster slicing,
  resizing, gamma correction) are parameters of the embedding, never
  modelled: `crop` takes the loader's result and the detector's box list
  as arguments, and its result is the geometry (the crop position list),
  the only thing the engine itself produces.
-/

namespace Autocrop

/-- Exception kinds raised by the embedded code.  `nameError n` is Python's
NameError on the unbound name `n`; `imageReadError` is the repository's own
`ImageReadError` class (autocrop.py line 25). -/
inductive PyErr where
  | nameError (n : String)
  | typeError
  | valueError
  | assertionError
  | imageReadError
  deriving DecidableEq, Repr

/-- Python exception classes relevant to this file's error model. -/
inductive PyClass where
  | baseException
  | exception
  | typeError
  | valueError
  | imageReadError
  deriving DecidableEq, Repr

/-- Method resolution ancestry of each modelled Python exception class.
`TypeError` and `ValueError` are built-ins deriving from `Exception`;
`ImageReadError` is declared in the source as
`class ImageReadError(BaseException)` (autocrop.py lines 25-28), so its
ancestry skips `Exception` entirely. -/
def pyAncestors : PyClass → List PyClass
  | .baseException => [.baseException]
  | .exception => [.exception, .baseException]
  | .typeError => [.typeError, .exception, .baseException]
  | .valueError => [.valueError, .exception, .baseException]
  | .imageReadError => [.imageReadError, .baseException]

/-- Python's `int(a / b)`: float true division truncated toward zero, which
for integer operands in range is exactly truncating integer division. -/
def pyIntDiv (a b : Int) : Int := Int.tdiv a b

/-- Python's `int()` with no argument evaluates to `0`.  The source writes
exactly this at autocrop.py line 424: `expected_width = int()`. -/
def intNoArg : Int := 0

/-- The `Cropper` instance state set up by `Cropper.__init__` (autocrop.py
lines 137-174).  `self.aspect_ratio = width / height` is a real number;
it is represented by the `width` and `height` fields themselves, and every
use site `int(e / self.aspect_ratio)` is embedded as
`pyIntDiv (e * height) width`, the same exact rational computation.  The
`casc_path` field is a filesystem path for the external detector and is
not part of the geometry. -/
structure Cropper where
  height : Int
  width : Int
  gamma : Bool
  portrait : Bool
  face_percent : Int
  pad_top : Int
  pad_right : Int
  pad_bottom : Int
  pad_left : Int
  deriving DecidableEq, Repr

/-- `check_positive_scalar` (autocrop.py lines 54-58) for an integer
argument: an `int` is a non-string scalar, so the function returns it when
positive and raises ValueError otherwise. -/
def check_positive_scalar (num : Int) : Except PyErr Int :=
  if num > 0 then .ok num else .error .valueError

/-- The `padding` argument of `Cropper.__init__`: Python `None`, an `int`,
or a `dict` mapping string keys to ints (modelled as an association list,
as Python dict keys are unique). -/
inductive PadArg where
  | noneVal
  | intVal (n : Int)
  | dictVal (entries : List (String × Int))
  deriving DecidableEq, Repr

/-- The valid key set of a padding dict (autocrop.py lines 63-68). -/
def valid_pad_keys : List String := ["pad_top", "pad_right", "pad_bottom", "pad_left"]

/-- Set equality of a dict's key list with `valid_pad_keys`. -/
def keysMatch (es : List (String × Int)) : Bool :=
  valid_pad_keys.all (fun k => (es.map Prod.fst).contains k)
    && (es.map Prod.fst).all (fun k => valid_pad_keys.contains k)

/-- `check_valid_pad_dict` (autocrop.py lines 61-79).  The function builds
the `conditions` list eagerly: for `None` or an `int` the second entry
`len(dic) == 4` raises TypeError; for a dict the fourth entry
`all(check_positive_scalar(n) for n in dic.values())` raises ValueError as
soon as some value is not positive; otherwise the dict is returned when all
conditions hold and ValueError is raised when one fails. -/
def check_valid_pad_dict : PadArg → Except PyErr (List (String × Int))
  | .noneVal => .error .typeError
  | .intVal _ => .error .typeError
  | .dictVal es =>
      if es.any (fun kv => decide (kv.2 ≤ 0)) then .error .valueError
      else if es.length == 4 && keysMatch es then .ok es
      else .error .valueError

/-- Dict subscription `dic[k]` for a padding dict whose key set has already
been validated (so the default never fires). -/
def dictGet (es : List (String × Int)) (k : String) : Int :=
  (es.lookup k).getD 0

/-- `Cropper.__init__` (autocrop.py lines 137-174): validates height, then
width, raises ValueError when `face_percent > 100`, validates
`face_percent`, then either spreads an int `padding` to all four sides or
passes anything else - including the default `None` - to
`check_valid_pad_dict`. -/
def cropperInit (width height face_percent : Int) (padding : PadArg)
    (fix_gamma portrait : Bool) : Except PyErr Cropper := do
  let h ← check_positive_scalar height
  let w ← check_positive_scalar width
  if face_percent > 100 then
    throw PyErr.valueError
  let fp ← check_positive_scalar face_percent
  match padding with
  | .intVal p =>
      let pad ← check_positive_scalar p
      pure { height := h, width := w, gamma := fix_gamma, portrait := portrait,
             face_percent := fp, pad_top := pad, pad_right := pad,
             pad_bottom := pad, pad_left := pad }
  | other =>
      let pad ← check_valid_pad_dict other
      pure { height := h, width := w, gamma := fix_gamma, portrait := portrait,
             face_percent := fp,
             pad_top := dictGet pad "pad_top",
             pad_right := dictGet pad "pad_right",
             pad_bottom := dictGet pad "pad_bottom",
             pad_left := dictGet pad "pad_left" }

/-- `Cropper._expand_centered` (autocrop.py lines 246-318).
`i = int(w / 2)`, `j = int(i / self.face_percent)`, `center = x + i`,
candidate `h1 = center - j`, `h2 = center + j`.  With `expected_width`
supplied the function instead returns the window of half-width
`int(expected_width / 2)` around `center`, flag True, touching neither
`face_percent`-based sizing nor the image bound.  Otherwise two sequential
overflow corrections run: if `h1 < 0` then `h1 = 0`, `h2 = 2 * center`;
then, on the possibly updated `h2`, if `h2 > imgw` then `h2 = imgw`,
`h1 = 2 * center - h2 = 2 * center - imgw`; the flag is False when either
fired. -/
def expand_centered (c : Cropper) (x w imgw : Int) (expected_width : Option Int) :
    Int × Int × Bool :=
  let i := pyIntDiv w 2
  let j := pyIntDiv i c.face_percent
  let center := x + i
  let h1 := center - j
  let h2 := center + j
  match expected_width with
  | some ew =>
      let half := pyIntDiv ew 2
      (center - half, center + half, true)
  | none =>
      let step1 : Int × Int × Bool :=
        if h1 < 0 then (0, 2 * center, false) else (h1, h2, true)
      if step1.2.1 > imgw then (2 * center - imgw, imgw, false) else step1

/-- Python `int( EYES_RATIO * h)` at autocrop.py line 367.  Modelled from
the spec: the constant EYES_RATIO lives in `constants.py`, which is not
among the source files; the spec gives its value as a fixed fraction of
about 0.42, taken here as 21/50. -/
def eyesRatioTimes (h : Int) : Int := pyIntDiv (21 * h) 50

/-- `Cropper._expand_portrait` (autocrop.py lines 320-382).
`eye_height = y + int( EYES_RATIO * h)`, `third = int(expected_height / 3)`,
candidate `v1 = eye_height - 2 * third`, `v2 = eye_height + third`; then
two sequential overflow corrections: if `v1 < 0` then `v1 = 0`,
`v2 = int(1.5 * eye_height)`; then, on the possibly updated `v2`, if
`v2 > imgh` then `v2 = imgh`, `v1 = eye_height - 2 * (v2 - eye_height)`;
the flag is False when either fired. -/
def expand_portrait (y h imgh expected_height : Int) : Int × Int × Bool :=
  let eye_height := y + eyesRatioTimes h
  let third := pyIntDiv expected_height 3
  let v1 := eye_height - 2 * third
  let v2 := eye_height + third
  let step1 : Int × Int × Bool :=
    if v1 < 0 then (0, pyIntDiv (3 * eye_height) 2, false) else (v1, v2, true)
  if step1.2.1 > imgh then (eye_height - 2 * (imgh - eye_height), imgh, false) else step1

/-- `True if self.width > self.height else False` at autocrop.py line 410:
the flag the source calls `tall` and tests together with `self.portrait`
to select the portrait branch. -/
def tallFlag (c : Cropper) : Bool := decide (c.width > c.height)

/-- The names a load of `padding` inside `Cropper._crop_positions` can
resolve against: the function's own bindings (`self` and its parameters,
autocrop.py lines 384-386; the function assigns no local named `padding`),
then the module's global scope (imports and top-level definitions of
autocrop.py), then the Python builtins relevant here (none is named
`padding`). -/
def crop_positions_scope : List String :=
  ["self", "img_height", "img_width", "x", "y", "w", "h",
   "tall", "use_face_percent", "h1", "h2", "expected_height",
   "v1", "v2", "expected_width", "height_crop", "width_crop",
   "xpad", "ypad", "left_pad_ratio", "right_pad_ratio",
   "top_pad_ratio", "bottom_pad_ratio", "delta_h", "delta_v",
   "cv2", "np", "os", "sys", "Image",
   "MINFACE", "GAMMA_THRES", "GAMMA", "CV2_FILETYPES", "PILLOW_FILETYPES",
   "CASCFILE", "EYES_RATIO", "COMBINED_FILETYPES", "INPUT_FILETYPES",
   "ImageReadError", "bgr_to_rbg", "gamma", "check_underexposed",
   "check_positive_scalar", "check_valid_pad_dict", "open_file", "Cropper"]

/-- `Cropper._crop_positions` (autocrop.py lines 384-477) as written.  Its
first executable statement, line 405, is `if padding:`.  The name
`padding` is bound nowhere reachable - it is not a parameter, not a local,
not in `crop_positions_scope`, and not a builtin (the constructor stores
the padding under `self.pad_top` ... `self.pad_left` only) - so evaluating
the condition raises NameError before any branch of the function runs, and
the function never returns a crop rectangle.  (Had `padding` resolved to a
truthy value, line 407 would call `self._apply_padding()`, a method
declared without a `self` parameter, raising TypeError; the lines past the
branch read the further unbound names `imgw`, `imgh` and `aspect_ratio`,
see `portraitBranchResolved`.) -/
def cropPositions (_c : Cropper) (_img_height _img_width _x _y _w _h : Int) :
    Except PyErr (List Int) :=
  .error (.nameError "padding")

/-- The portrait branch of `_crop_positions` (autocrop.py lines 411-429)
under the name resolution the surrounding code forces: the unbound free
names `imgw` and `imgh` read as the `img_width` and `img_height`
parameters, and `int(e / self.aspect_ratio)` embedded as
`pyIntDiv (e * height) width`.  The branch runs `_expand_centered` on the
horizontal axis, derives `expected_height` from `w` when expectations were
met and from the achieved width `h2 - h1` otherwise, runs
`_expand_portrait`, and - when the vertical pass missed expectation -
re-runs `_expand_centered` with `expected_width = int()` (which is 0,
line 424) and then executes
`assert all(v for v in use_face_percent.values())` over the flag dict in
which `use_face_percent["h"]` is still False, so that path always raises
AssertionError; the no-rerun path raises AssertionError exactly when the
horizontal flag was False. -/
def portraitBranchResolved (c : Cropper) (img_height img_width x y w h : Int) :
    Except PyErr (List Int) :=
  let r1 := expand_centered c x w img_width none
  let h1 := r1.1
  let h2 := r1.2.1
  let metW := r1.2.2
  let expected_height :=
    if metW = false then pyIntDiv ((h2 - h1) * c.height) c.width
    else pyIntDiv (w * c.height) c.width
  let r2 := expand_portrait y h img_height expected_height
  let v1 := r2.1
  let v2 := r2.2.1
  let metH := r2.2.2
  if metH = false then
    let r3 := expand_centered c x w img_width (some intNoArg)
    if r3.2.2 && metH then .ok [r3.1, r3.2.1, v1, v2] else .error .assertionError
  else
    if metW && metH then .ok [h1, h2, v1, v2] else .error .assertionError

/-- A face bounding box as the external detector returns it. -/
structure Box where
  x : Int
  y : Int
  w : Int
  h : Int
  deriving DecidableEq, Repr

/-- The argument of `Cropper.crop`: a file path (embedded with the external
loader `open_file`'s result, `none` when the image cannot be decoded), an
in-memory array with its shape, or any object without image shape
information. -/
inductive CropInput where
  | path (loaded : Option (Int × Int))
  | arr (shape : Int × Int)
  | noShape
  deriving DecidableEq, Repr

/-- The `(img_height, img_width)` shape available to `crop`, if any. -/
def imageOf : CropInput → Option (Int × Int)
  | .path l => l
  | .arr s => some s
  | .noShape => none

/-- `Cropper.crop` (autocrop.py lines 176-239), geometry part.  The
grayscale conversion is external and its failure is caught (lines
197-200); `image.shape[:2]` raises AttributeError when there is no image,
which line 206 turns into `raise ImageReadError`; detection is external,
so the box list `faces` is a parameter; with no boxes the function returns
`None` (lines 221-223); otherwise it takes `faces[-1]` and calls
`_crop_positions`.  Slicing, resizing and the gamma fix are external
raster operations, so the embedded result is the crop position list. -/
def crop (c : Cropper) (input : CropInput) (faces : List Box) :
    Except PyErr (Option (List Int)) :=
  match imageOf input with
  | none => .error .imageReadError
  | some (ih, iw) =>
      match faces.getLast? with
      | none => .ok none
      | some b => (cropPositions c ih iw b.x b.y b.w b.h).map some

/-- A concrete, fully valid `Cropper` state: the result of a successful
construction with the given target width, height and face percent, uniform
padding 50 and both flags True. -/
def mkCropper (width height face_percent : Int) : Cropper :=
  { height := height, width := width, gamma := true, portrait := true,
    face_percent := face_percent, pad_top := 50, pad_right := 50,
    pad_bottom := 50, pad_left := 50 }

/-! ## The claims -/

/-- C1.  Containment postcondition.  The claim is false of the code as
written: `_crop_positions` raises NameError on the unbound name `padding`
at its first statement (line 405) on every input, so no call ever returns
a rectangle, contained or otherwise.  The theorem records both that the
function's result is that error for all arguments and that `padding` is
indeed absent from every scope the load could resolve against. -/
theorem c1_crop_positions_never_returns (c : Cropper)
    (img_height img_width x y w h : Int) :
    cropPositions c img_height img_width x y w h = .error (.nameError "padding")
      ∧ crop_positions_scope.contains "padding" = false :=
  ⟨rfl, rfl⟩

/-- C2.  Mode selection.  The claim is false of the code: the mode branch
never executes (NameError on `padding`, first conjunct), and the source's
own tall-orientation test at line 410 is `self.width > self.height`, the
reverse of the docstring's `height > width` condition the claim states:
for the tall output 400 wide by 500 high the source's flag is False, and
for the wide output 500 by 400 it is True. -/
theorem c2_mode_selection_on_code :
    (∀ (c : Cropper) (ih iw x y w h : Int),
        cropPositions c ih iw x y w h = .error (.nameError "padding"))
      ∧ tallFlag (mkCropper 400 500 50) = false
      ∧ tallFlag (mkCropper 500 400 50) = true :=
  ⟨fun _ _ _ _ _ _ _ => rfl, rfl, rfl⟩

/-- C3.  Two-pass reconciliation.  The claim is false of the code: when
the vertical pass misses expectation, line 424 assigns
`expected_width = int()`, which is `0`, not a value derived from the
achieved height; the re-run horizontal window therefore has width 0 (here
it degenerates to the single point 500), and the branch then fails its own
assertion because `use_face_percent["h"]` is still False.  Input: target
500 wide by 400 high (so the source's portrait branch would be selected),
face percent 50, image 1000 by 1000, face box x=400, y=950, w=200, h=40,
whose vertical candidate [860, 1019] overflows the bottom edge. -/
theorem c3_rederivation_is_int_noarg :
    portraitBranchResolved (mkCropper 500 400 50) 1000 1000 400 950 200 40
        = .error .assertionError
      ∧ expand_centered (mkCropper 500 400 50) 400 200 1000 (some intNoArg)
        = (500, 500, true)
      ∧ (expand_portrait 950 40 1000 160).2.2 = false :=
  ⟨rfl, rfl, rfl⟩

/-- C4.  No-face semantics.  For every cropper state and every image shape,
when the detector returns zero bounding boxes `crop` returns Python
`None` - embedded as `.ok none`: no exception, no rectangle - without
invoking `_crop_positions` (every invocation of `cropPositions` is an
`Except.error`, so an `.ok` result also witnesses that the geometry engine
was not invoked). -/
theorem c4_no_face_returns_none (c : Cropper) (ih iw : Int) :
    crop c (.arr (ih, iw)) [] = .ok none :=
  rfl

/-- C5, counterexample.  Scenario A (image 1000 by 1000, face x=400, w=200,
face percent 50): the claim puts the pre-clamp candidate at approximately
[300, 700], but the code's margin is `int(int(200 / 2) / 50) = 2`, so the
candidate half-span never reaches even a loose reading of the claim: the
low end exceeds 350 and the high end stays below 650. -/
theorem c5_scenario_a_cex :
    ¬ ((expand_centered (mkCropper 500 500 50) 400 200 1000 none).1 ≤ 350
        ∧ 650 ≤ (expand_centered (mkCropper 500 500 50) 400 200 1000 none).2.1) := by
  decide

/-- C5, amended.  On Scenario A the candidate interval on each axis (the
two axes get identical calls, since x=y=400 and w=h=200) is [498, 502]:
margin `int(int(200 / 2) / 50) = 2` around center 500.  It lies fully
inside the image and the expectation flag is True. -/
theorem c5_scenario_a_amended :
    expand_centered (mkCropper 500 500 50) 400 200 1000 none = (498, 502, true) := by
  decide

/-- C6.  Eager configuration validation.  The claim is false of the code:
with the default `padding=None` - a case the claim says must construct
successfully - `__init__` hands `None` to `check_valid_pad_dict`, whose
`len(dic) == 4` condition raises TypeError, so default construction always
fails.  The remaining conjuncts record the validation behaviour around it:
integer padding constructs, a well-formed dict constructs, face percent
above 100 or a non-positive width raises ValueError, and a dict with a
wrong key or a non-positive value raises ValueError. -/
theorem c6_default_construction_raises :
    cropperInit 500 500 50 .noneVal true true = .error .typeError
      ∧ cropperInit 500 500 50 (.intVal 50) true true = .ok (mkCropper 500 500 50)
      ∧ cropperInit 500 500 50
          (.dictVal [("pad_top", 10), ("pad_right", 50),
                     ("pad_bottom", 10), ("pad_left", 50)]) true true
        = .ok { height := 500, width := 500, gamma := true, portrait := true,
                face_percent := 50, pad_top := 10, pad_right := 50,
                pad_bottom := 10, pad_left := 50 }
      ∧ cropperInit 500 500 101 (.intVal 50) true true = .error .valueError
      ∧ cropperInit 0 500 50 (.intVal 50) true true = .error .valueError
      ∧ cropperInit 500 500 50
          (.dictVal [("pad_top", 10), ("pad_right", 50),
                     ("pad_bottom", 10), ("wrong", 50)]) true true
        = .error .valueError
      ∧ cropperInit 500 500 50
          (.dictVal [("pad_top", 10), ("pad_right", 50),
                     ("pad_bottom", 10), ("pad_left", 0)]) true true
        = .error .valueError :=
  ⟨rfl, rfl, rfl, rfl, rfl, rfl, rfl⟩

/-- C7.  No-overflow idempotence: whenever the ideal symmetric candidate
[center - margin, center + margin] computed by `_expand_centered` (center
`x + int(w / 2)`, margin `int(int(w / 2) / face_percent)`) already lies
within [0, imgw], the function returns exactly that interval with the
expectation flag True. -/
theorem c7_no_overflow_idempotent (c : Cropper) (x w imgw : Int)
    (hlo : 0 ≤ x + pyIntDiv w 2 - pyIntDiv (pyIntDiv w 2) c.face_percent)
    (hhi : x + pyIntDiv w 2 + pyIntDiv (pyIntDiv w 2) c.face_percent ≤ imgw) :
    expand_centered c x w imgw none =
      (x + pyIntDiv w 2 - pyIntDiv (pyIntDiv w 2) c.face_percent,
       x + pyIntDiv w 2 + pyIntDiv (pyIntDiv w 2) c.face_percent, true) := by
  have h1 : ¬ (x + pyIntDiv w 2 - pyIntDiv (pyIntDiv w 2) c.face_percent < 0) := by
    omega
  have h2 : ¬ (x + pyIntDiv w 2 + pyIntDiv (pyIntDiv w 2) c.face_percent > imgw) := by
    omega
  simp [expand_centered, h1, h2]

/-- C7, witness: face x=100, w=100, face percent 1, image extent 1000; the
symmetric candidate [100, 200] fits, and is returned with flag True. -/
theorem c7_no_overflow_idempotent_witness :
    expand_centered (mkCropper 500 500 1) 100 100 1000 none = (100, 200, true) :=
  c7_no_overflow_idempotent (mkCropper 500 500 1) 100 100 1000 (by decide) (by decide)

/-- C8, counterexample.  With an odd `expected_width` the returned window
does not have exactly that width: at `expected_width = 5` (face x=0, w=10)
the code returns [3, 7], of width 4, because the half-width is
`int(5 / 2) = 2`. -/
theorem c8_odd_width_cex :
    ¬ ((expand_centered (mkCropper 500 500 50) 0 10 1000 (some 5)).2.1
        - (expand_centered (mkCropper 500 500 50) 0 10 1000 (some 5)).1 = 5) := by
  decide

/-- C8, amended.  With `expected_width` supplied, `_expand_centered`
returns the window [center - int(expected_width / 2),
center + int(expected_width / 2)] - of width `2 * int(expected_width / 2)`,
which equals `expected_width` exactly when `expected_width` is even - with
the expectation flag True unconditionally; `face_percent` and the image
extent are ignored (no bounds clamping), as the second conjunct states:
the result is unchanged under any other cropper state and extent. -/
theorem c8_expected_width_window (c c2 : Cropper) (x w imgw imgw2 ew : Int) :
    expand_centered c x w imgw (some ew) =
      (x + pyIntDiv w 2 - pyIntDiv ew 2,
       x + pyIntDiv w 2 + pyIntDiv ew 2, true)
      ∧ expand_centered c x w imgw (some ew)
        = expand_centered c2 x w imgw2 (some ew) := by
  constructor <;> simp [expand_centered]

/-- C9.  Portrait expansion: with eye line `y + int( EYES_RATIO * h)` and
third `int(expected_height / 3)`, the candidate is [eyeLine - 2*third,
eyeLine + third]; when it fits it is returned with flag True; low overflow
anchors at the eye line, giving [0, int(1.5 * eyeLine)]; high overflow
(tested on the possibly updated upper end) gives
[eyeLine - 2*(imgh - eyeLine), imgh]; the flag is False exactly on the
overflow outcomes. -/
theorem c9_portrait_rule_of_thirds (y h imgh eh : Int) :
    ((0 ≤ y + eyesRatioTimes h - 2 * pyIntDiv eh 3
        ∧ y + eyesRatioTimes h + pyIntDiv eh 3 ≤ imgh) →
      expand_portrait y h imgh eh =
        (y + eyesRatioTimes h - 2 * pyIntDiv eh 3,
         y + eyesRatioTimes h + pyIntDiv eh 3, true))
    ∧ ((y + eyesRatioTimes h - 2 * pyIntDiv eh 3 < 0
        ∧ pyIntDiv (3 * (y + eyesRatioTimes h)) 2 ≤ imgh) →
      expand_portrait y h imgh eh =
        (0, pyIntDiv (3 * (y + eyesRatioTimes h)) 2, false))
    ∧ ((0 ≤ y + eyesRatioTimes h - 2 * pyIntDiv eh 3
        ∧ imgh < y + eyesRatioTimes h + pyIntDiv eh 3) →
      expand_portrait y h imgh eh =
        (y + eyesRatioTimes h - 2 * (imgh - (y + eyesRatioTimes h)), imgh, false))
    ∧ ((y + eyesRatioTimes h - 2 * pyIntDiv eh 3 < 0
        ∧ imgh < pyIntDiv (3 * (y + eyesRatioTimes h)) 2) →
      expand_portrait y h imgh eh =
        (y + eyesRatioTimes h - 2 * (imgh - (y + eyesRatioTimes h)), imgh, false)) := by
  refine ⟨fun hc => ?_, fun hc => ?_, fun hc => ?_, fun hc => ?_⟩
  · have h1 : ¬ (y + eyesRatioTimes h - 2 * pyIntDiv eh 3 < 0) := by omega
    have h2 : ¬ (y + eyesRatioTimes h + pyIntDiv eh 3 > imgh) := by omega
    simp [expand_portrait, h1, h2]
  · have h1 : y + eyesRatioTimes h - 2 * pyIntDiv eh 3 < 0 := hc.1
    have h2 : ¬ (pyIntDiv (3 * (y + eyesRatioTimes h)) 2 > imgh) := by omega
    simp [expand_portrait, h1, h2]
  · have h1 : ¬ (y + eyesRatioTimes h - 2 * pyIntDiv eh 3 < 0) := by omega
    have h2 : y + eyesRatioTimes h + pyIntDiv eh 3 > imgh := by omega
    simp [expand_portrait, h1, h2]
  · have h1 : y + eyesRatioTimes h - 2 * pyIntDiv eh 3 < 0 := hc.1
    have h2 : pyIntDiv (3 * (y + eyesRatioTimes h)) 2 > imgh := by omega
    simp [expand_portrait, h1, h2]

/-- C10.  When the loader yields `None` for a path, or the argument carries
no image shape at all, `crop` raises `ImageReadError` rather than
returning the no-result value; and `ImageReadError` is declared deriving
from `BaseException`, not `Exception` (autocrop.py line 25), so
`Exception` is not among its ancestors. -/
theorem c10_image_read_error (c : Cropper) (faces : List Box) :
    crop c (.path none) faces = .error .imageReadError
      ∧ crop c .noShape faces = .error .imageReadError
      ∧ pyAncestors .imageReadError = [.imageReadError, .baseException]
      ∧ PyClass.exception ∉ pyAncestors .imageReadError :=
  ⟨rfl, rfl, rfl, by decide⟩

end Autocrop
